import Mathlib

set_option maxRecDepth 100000

/-!
Shallow embedding of the codecrafters-sqlite-rust read-only SQLite engine.

Conventions used throughout this development:
* machine bytes and unsigned machine integers are `Nat`; signed 64-bit values
  are `Int` obtained through an explicit two's-complement reinterpretation
  (`toSigned64`), and casts such as Rust's `as u64` are explicit `% 2 ^ 64`
  operations;
* fallible Rust code is embedded in `Except RErr`; a Rust `panic!`
  (slice-index overflow, `unreachable!()`, a failed `expect`/`unwrap`) becomes
  `RErr.panic`, while a typed `anyhow` / `io` error becomes `RErr.err` with the
  source's message;
* byte slices are `List Nat`; a Rust slice expression `&data[a..b]` is the
  guarded `sliceE`, which panics (in the `RErr.panic` sense) exactly when the
  Rust expression would;
* recursion through the page graph (which the Rust code performs by recursion
  through `get_page`) is made total with an explicit fuel argument; running out
  of fuel yields the distinguished `RErr.fuel`, never used for any other
  purpose.

The engine's own `src/` files are embedded directly.  `src/database.rs` and
`src/sqlite_schema.rs` were written against a later revision of `record.rs`,
`page.rs` and `sql.rs` than the one checked in under `src/` (they call
`Record::read(rowid, payload)`, `Table::find_applicable_index`,
`sql::parse_create`, and treat `right_child_page_number` as an `Option`).
Definitions for those missing pieces are modelled from the specification and
are marked `Modelled from the spec:` in their doc comments.
-/

/-! ### Basic machine-integer helpers -/

/-- Reinterpret a 64-bit unsigned value (a `Nat` below `2 ^ 64`) as a signed
two's-complement `i64`. -/
def toSigned64 (u : Nat) : Int :=
  if u < 2 ^ 63 then (u : Int) else (u : Int) - 2 ^ 64

/-- Rust's `as u64` cast of an `i64`: the two's-complement bit pattern as an
unsigned value. -/
def intToU64 (i : Int) : Nat := (i % (2 ^ 64 : Int)).toNat

/-- Rust's `as u32` cast of an integer value. -/
def intToU32 (i : Int) : Nat := (i % (2 ^ 32 : Int)).toNat

/-- Wrapping `u32` subtraction (release-mode Rust semantics of `a - b`). -/
def wrapSub32 (a b : Nat) : Nat := (a + (2 ^ 32 - b % 2 ^ 32)) % 2 ^ 32

/-- Wrapping `u16` subtraction (release-mode Rust semantics of `a - b`). -/
def wrapSub16 (a b : Nat) : Nat := (a + (2 ^ 16 - b % 2 ^ 16)) % 2 ^ 16

/-- Big-endian interpretation of a byte list. -/
def beNat (l : List Nat) : Nat := l.foldl (fun a b => a * 256 + b) 0

/-- Big-endian `u16` read at index `i` of a byte list. -/
def be16 (l : List Nat) (i : Nat) : Nat := l.getD i 0 * 256 + l.getD (i + 1) 0

/-- Big-endian `u32` read at index `i` of a byte list. -/
def be32 (l : List Nat) (i : Nat) : Nat :=
  ((l.getD i 0 * 256 + l.getD (i + 1) 0) * 256 + l.getD (i + 2) 0) * 256 + l.getD (i + 3) 0

/-! ### Error model -/

/-- Outcomes of fallible engine code: a Rust panic, a typed error with the
source's message, or fuel exhaustion of the embedding (never produced by the
embedded code itself on the inputs of any theorem below). -/
inductive RErr where
  | panic (msg : String)
  | err (msg : String)
  | fuel
deriving DecidableEq, Repr

deriving instance DecidableEq for Except

/-- Does an embedded computation end in a Rust panic? -/
def isPanicE {α : Type} : Except RErr α → Bool
  | .error (.panic _) => true
  | _ => false

/-- Does an embedded computation succeed? -/
def isOkE {α : Type} : Except RErr α → Bool
  | .ok _ => true
  | _ => false

/-- The Rust slice expression `&data[a..b]`: panics exactly when Rust would,
i.e. unless `a ≤ b ≤ data.len()`. -/
def sliceE (data : List Nat) (a b : Nat) : Except RErr (List Nat) :=
  if a ≤ b ∧ b ≤ data.length then .ok ((data.drop a).take (b - a))
  else .error (.panic "slice index out of range")

/-! ### `src/varint.rs` — `varint::read` -/

/-- The loop body of `varint::read`: `i` is the byte index, `acc` the i64
accumulator as a 64-bit pattern.  For indices 0–7 the low seven bits are
shifted in (`(varint << 7) | (byte & 0x7f)`); the ninth byte contributes all
eight bits (`(varint << 8) | byte`); iteration stops at the first byte with a
clear high bit.  Returns the final accumulator and the number of bytes read. -/
def varintLoop : Nat → Nat → List Nat → Nat × Nat
  | _, acc, [] => (acc, 0)
  | i, acc, b :: rest =>
    if i == 8 then ((acc * 256 + b) % 2 ^ 64, 1)
    else
      let acc2 := (acc * 128 + b % 128) % 2 ^ 64
      if b < 128 then (acc2, 1)
      else
        let r := varintLoop (i + 1) acc2 rest
        (r.1, r.2 + 1)

/-- `varint::read`: decode a SQLite varint from the front of `bs`, returning
the signed 64-bit value and the number of bytes consumed. -/
def varintRead (bs : List Nat) : Int × Nat :=
  let r := varintLoop 0 0 bs
  (toSigned64 r.1, r.2)

example : varintRead [1] = (1, 1) := by decide
example : varintRead [3] = (3, 1) := by decide
example : varintRead [127] = (127, 1) := by decide
example : varintRead [129, 0] = (128, 2) := by decide
example : varintRead [129, 1] = (129, 2) := by decide
example : varintRead [129, 127] = (255, 2) := by decide
example : varintRead (List.replicate 9 255) = (-1, 9) := by decide
example : varintRead (List.replicate 10 1) = (1, 1) := by decide
example : varintRead (List.replicate 10 255) = (-1, 9) := by decide

/-! ### `src/record.rs` — serial types and the record decoder -/

/-- `ColumnType` of `record.rs`. -/
inductive ColumnTypeR where
  | null | i8 | i16 | i24 | i32 | i48 | i64 | f64 | zero | one
  | blob (size : Nat)
  | text (size : Nat)
deriving DecidableEq, Repr

/-- `ColumnValue`.  Integer variants carry the decoded signed 64-bit value;
`f64` carries the raw eight payload bytes (of the claims below none interprets
a float); `blob`/`text` carry the payload slice. -/
inductive ColumnValue where
  | null
  | i8 (v : Int) | i16 (v : Int) | i24 (v : Int) | i32 (v : Int) | i48 (v : Int) | i64 (v : Int)
  | f64 (bytes : List Nat)
  | zero | one
  | blob (content : List Nat)
  | text (content : List Nat)
deriving DecidableEq, Repr

/-- `impl From<u64> for ColumnType` of `record.rs`.  The guards are the
source's `n > 12 && n % 2 == 0` and `n > 13 && n % 2 == 1`; every remaining
value (10, 11, 12 and 13) falls into `unreachable!()`, i.e. panics. -/
def columnTypeFromOld (value : Nat) : Except RErr ColumnTypeR :=
  match value with
  | 0 => .ok .null
  | 1 => .ok .i8
  | 2 => .ok .i16
  | 3 => .ok .i24
  | 4 => .ok .i32
  | 5 => .ok .i48
  | 6 => .ok .i64
  | 7 => .ok .f64
  | 8 => .ok .zero
  | 9 => .ok .one
  | n =>
    if 12 < n && n % 2 == 0 then .ok (.blob ((n - 12) / 2))
    else if 13 < n && n % 2 == 1 then .ok (.text ((n - 13) / 2))
    else .error (.panic "unreachable")

/-- Two's-complement reinterpretation of an `n`-byte big-endian unsigned value
(used by the spec-modelled decoder, which sign-extends). -/
def signExtVal (n : Nat) (u : Nat) : Int :=
  if u < 2 ^ (8 * n - 1) then (u : Int) else (u : Int) - 2 ^ (8 * n)

/-- Decode one column value at `pos` of `payload`.

With `signed := false` this is `read_n_bytes_as_i64!` of `record.rs`, which
copies the `n` payload bytes into the LOW end of a zeroed 8-byte buffer before
`i64::from_be_bytes` — i.e. it zero-extends, which `toSigned64 ∘ beNat`
captures exactly (for widths below 8 the accumulated value is below `2 ^ 63`).
With `signed := true` the bytes are sign-extended, as the specification's
record format prescribes (used only by the spec-modelled decoder). -/
def decodeValueAt (signed : Bool) (t : ColumnTypeR) (payload : List Nat) (pos : Nat) :
    Except RErr (ColumnValue × Nat) :=
  match t with
  | .null => .ok (.null, pos)
  | .i8 => do
    let bs ← sliceE payload pos (pos + 1)
    .ok (.i8 (if signed then signExtVal 1 (beNat bs) else toSigned64 (beNat bs)), pos + 1)
  | .i16 => do
    let bs ← sliceE payload pos (pos + 2)
    .ok (.i16 (if signed then signExtVal 2 (beNat bs) else toSigned64 (beNat bs)), pos + 2)
  | .i24 => do
    let bs ← sliceE payload pos (pos + 3)
    .ok (.i24 (if signed then signExtVal 3 (beNat bs) else toSigned64 (beNat bs)), pos + 3)
  | .i32 => do
    let bs ← sliceE payload pos (pos + 4)
    .ok (.i32 (if signed then signExtVal 4 (beNat bs) else toSigned64 (beNat bs)), pos + 4)
  | .i48 => do
    let bs ← sliceE payload pos (pos + 6)
    .ok (.i48 (if signed then signExtVal 6 (beNat bs) else toSigned64 (beNat bs)), pos + 6)
  | .i64 => do
    let bs ← sliceE payload pos (pos + 8)
    .ok (.i64 (toSigned64 (beNat bs)), pos + 8)
  | .f64 => do
    let bs ← sliceE payload pos (pos + 8)
    .ok (.f64 bs, pos + 8)
  | .zero => .ok (.zero, pos)
  | .one => .ok (.one, pos)
  | .blob n => do
    let bs ← sliceE payload pos (pos + n)
    .ok (.blob bs, pos + n)
  | .text n => do
    let bs ← sliceE payload pos (pos + n)
    .ok (.text bs, pos + n)

/-- The value loop shared by both record decoders: decode the listed column
types left to right, threading the cursor. -/
def readValuesGo (signed : Bool) (payload : List Nat) :
    List ColumnTypeR → Nat → Except RErr (List ColumnValue)
  | [], _ => .ok []
  | t :: ts, pos => do
    let r ← decodeValueAt signed t payload pos
    let rest ← readValuesGo signed payload ts r.2
    .ok (r.1 :: rest)

/-- The serial-type loop of `Record::read` in `record.rs`: read exactly
`columnCount` serial-type varints starting at byte `pos`.  The slice
expression `&payload[cursor..]` panics when the cursor has run past the end;
`ColumnType::from` panics on serial types 10–13.  Returns the column types and
the final cursor. -/
def readSerialsOld (payload : List Nat) : Nat → Nat → Except RErr (List ColumnTypeR × Nat)
  | 0, pos => .ok ([], pos)
  | c + 1, pos =>
    if payload.length < pos then .error (.panic "slice index out of range")
    else do
      let v := varintRead (payload.drop pos)
      let t ← columnTypeFromOld (intToU64 v.1)
      let r ← readSerialsOld payload c (pos + v.2)
      .ok (t :: r.1, r.2)

/-- `Record::read(payload, column_count)` of `src/record.rs`: read the
header-size varint (its value is bound to `_header_size` and ignored), then
`column_count` serial types, then the values.  All failures are panics —
this decoder returns no typed error. -/
def recordReadOld (payload : List Nat) (columnCount : Nat) : Except RErr (List ColumnValue) := do
  let h := varintRead payload
  let sr ← readSerialsOld payload columnCount h.2
  readValuesGo false payload sr.1 sr.2

example : recordReadOld [2, 0, 0] 2 = .ok [.null, .null] := by decide
example : recordReadOld [2, 1, 255] 1 = .ok [.i8 255] := by decide
example : recordReadOld [2, 10] 1 = .error (.panic "unreachable") := by decide
example : recordReadOld [2, 1] 1 = .error (.panic "slice index out of range") := by decide

/-! ### `src/page.rs` — page kinds, cells and the page reader -/

/-- `PageKind`. -/
inductive PageKindE where
  | interiorIndex | leafIndex | interiorTable | leafTable
deriving DecidableEq, Repr

/-- `PageKind::is_interior`. -/
def pageKindIsInterior : PageKindE → Bool
  | .interiorIndex | .interiorTable => true
  | _ => false

/-- `impl TryFrom<u8> for PageKind`: `0x02`, `0x05`, `0x0a`, `0x0d` are the
valid kind bytes; anything else is the typed error `Invalid page kind`. -/
def pageKindFrom (value : Nat) : Except RErr PageKindE :=
  if value == 2 then .ok .interiorIndex
  else if value == 5 then .ok .interiorTable
  else if value == 10 then .ok .leafIndex
  else if value == 13 then .ok .leafTable
  else .error (.err "Invalid page kind")

/-- `Cell`, the four cell variants.  `key` and `rowid` are stored as the
decoded varint value: the source casts the `i64` varint to `u64` on read and
back to `i64` at use sites, which is the identity on the 64-bit pattern. -/
inductive CellE where
  | interiorIndex (leftChildPage : Nat) (size : Nat) (payload : List Nat) (overflowPage : Nat)
  | leafIndex (size : Nat) (payload : List Nat) (overflowPage : Nat)
  | interiorTable (leftChildPage : Nat) (key : Int)
  | leafTable (size : Nat) (rowid : Int) (payload : List Nat) (overflowPage : Nat)
deriving DecidableEq, Repr

/-- `Cell::read_interior_index`. -/
def readInteriorIndexCell (data : List Nat) : Except RErr CellE := do
  let lcpBytes ← sliceE data 0 4
  let lcp := beNat lcpBytes
  let v := varintRead (data.drop 4)
  let size := intToU64 v.1
  let cursor := 4 + v.2
  if size > data.length - cursor then
    if data.length < 4 then .error (.panic "slice index out of range")
    else
      let e := data.length - 4
      let opBytes ← sliceE data e (e + 4)
      let payload ← sliceE data cursor e
      .ok (.interiorIndex lcp size payload (beNat opBytes))
  else
    let payload ← sliceE data cursor (cursor + size)
    .ok (.interiorIndex lcp size payload 0)

/-- `Cell::read_leaf_index`. -/
def readLeafIndexCell (data : List Nat) : Except RErr CellE := do
  let v := varintRead data
  let size := intToU64 v.1
  let cursor := v.2
  if size > data.length - cursor then
    if data.length < 4 then .error (.panic "slice index out of range")
    else
      let e := data.length - 4
      let opBytes ← sliceE data e (e + 4)
      let payload ← sliceE data cursor e
      .ok (.leafIndex size payload (beNat opBytes))
  else
    let payload ← sliceE data cursor (cursor + size)
    .ok (.leafIndex size payload 0)

/-- `Cell::read_interior_table`. -/
def readInteriorTableCell (data : List Nat) : Except RErr CellE := do
  let lcpBytes ← sliceE data 0 4
  let key := varintRead (data.drop 4)
  .ok (.interiorTable (beNat lcpBytes) key.1)

/-- `Cell::read_leaf_table`. -/
def readLeafTableCell (data : List Nat) : Except RErr CellE := do
  let v := varintRead data
  let size := intToU64 v.1
  let cursor := v.2
  let v2 := varintRead (data.drop cursor)
  let rowid := v2.1
  let cursor := cursor + v2.2
  if size > data.length - cursor then
    if data.length < 4 then .error (.panic "slice index out of range")
    else
      let e := data.length - 4
      let opBytes ← sliceE data e (e + 4)
      let payload ← sliceE data cursor e
      .ok (.leafTable size rowid payload (beNat opBytes))
  else
    let payload ← sliceE data cursor (cursor + size)
    .ok (.leafTable size rowid payload 0)

/-- `PageKind::read_cell`, the dispatch over the four cell parsers. -/
def readCellDispatch (kind : PageKindE) (data : List Nat) : Except RErr CellE :=
  match kind with
  | .interiorIndex => readInteriorIndexCell data
  | .leafIndex => readLeafIndexCell data
  | .interiorTable => readInteriorTableCell data
  | .leafTable => readLeafTableCell data

/-- `PageHeader`.  `src/page.rs` itself stores `right_child_page_number` as a
`u32` that is `0` on leaf pages; `src/database.rs` (written against a later
revision) consumes it as an `Option` via `if let Some(number)`.  It is
modelled as an `Option` that is `none` exactly on leaf pages, which both
revisions agree on observationally. -/
structure PageHeaderB where
  kind : PageKindE
  firstFreeblockStart : Nat
  numberOfCells : Nat
  contentStartOffset : Nat
  fragmentFreeBytes : Nat
  rightChildPageNumber : Option Nat
deriving DecidableEq, Repr

/-- `Page`. -/
structure PageB where
  header : PageHeaderB
  cellPointers : List Nat
  data : List Nat
deriving DecidableEq, Repr

/-- `chunks_exact(2)` followed by the big-endian `u16` read: consecutive byte
pairs, any trailing odd byte dropped. -/
def chunkPairsBE : List Nat → List Nat
  | a :: b :: rest => (a * 256 + b) :: chunkPairsBE rest
  | _ => []

/-- `Page::read_with_offset`.  `read_exact` of `page_size` bytes that come up
short is the typed `Io` error; an invalid kind byte is the typed
`Invalid page kind` error; the header-field indexing `page[0]`..`page[11]`
panics when the page is shorter than the header (possible only for tiny
`page_size` values).  The cell-pointer array is read with `chunks_exact(2)`,
taking `number_of_cells` entries (fewer if the page runs out), each reduced by
`offset` with wrapping `u16` subtraction.  Cell pointers are NOT range-checked
here. -/
def readWithOffset (bytes : List Nat) (pageSize : Nat) (offset : Nat) : Except RErr PageB :=
  if bytes.length < pageSize then .error (.err "Io")
  else
    let page := bytes.take pageSize
    if page.length < 1 then .error (.panic "index out of bounds")
    else
      match pageKindFrom (page.getD 0 0) with
      | .error e => .error e
      | .ok kind =>
        if page.length < 8 then .error (.panic "index out of bounds")
        else if pageKindIsInterior kind && page.length < 12 then
          .error (.panic "index out of bounds")
        else
          let headerSize := if pageKindIsInterior kind then 12 else 8
          let header : PageHeaderB :=
            { kind := kind
              firstFreeblockStart := be16 page 1
              numberOfCells := be16 page 3
              contentStartOffset := be16 page 5
              fragmentFreeBytes := page.getD 7 0
              rightChildPageNumber :=
                if pageKindIsInterior kind then some (be32 page 8) else none }
          let cellPointers :=
            ((chunkPairsBE (page.drop headerSize)).take header.numberOfCells).map
              (fun p => wrapSub16 p offset)
          .ok { header := header, cellPointers := cellPointers, data := page }

/-- `Page::cells`: read a cell at each stored pointer.  The slice expression
`&self.data[*pointer..]` panics when a pointer exceeds the page length; the
pointers were never validated at load time. -/
def cellsB (p : PageB) : Except RErr (List CellE) :=
  p.cellPointers.mapM fun ptr =>
    if p.data.length < ptr then .error (.panic "slice index out of range")
    else readCellDispatch p.header.kind (p.data.drop ptr)

/-- `Database::get_page(number)`: seek to `number * page_size` and read a page
with no pointer offset (callers pass the 1-based page number minus one). -/
def getPage (file : List Nat) (pageSize : Nat) (number : Nat) : Except RErr PageB :=
  readWithOffset (file.drop (number * pageSize)) pageSize 0

/-! ### `src/main.rs` — the `.dbinfo` path -/

/-- `Header::read` of `main.rs`: `read_exact` the first 100 bytes (short read
is the typed `Io` error) and take the big-endian `u16` at offset 16 as the
page size.  No magic check is performed on this path. -/
def mainHeaderRead (file : List Nat) : Except RErr Nat :=
  if file.length < 100 then .error (.err "Io") else .ok (be16 file 16)

/-- `PageHeader` of `main.rs` (the four fields its `read` fills). -/
structure MainPageHeader where
  nodeType : Nat
  firstFreeblock : Nat
  numberOfCells : Nat
  contentStart : Nat
deriving DecidableEq, Repr

/-- `PageHeader::read` of `main.rs`, called right after the 100-byte database
header: `read_exact` 8 bytes, i.e. file bytes 100–107. -/
def mainPageHeaderRead (file : List Nat) : Except RErr MainPageHeader :=
  if file.length < 108 then .error (.err "Io")
  else
    .ok { nodeType := file.getD 100 0
          firstFreeblock := be16 file 101
          numberOfCells := be16 file 103
          contentStart := be16 file 105 }

/-- The `.dbinfo` branch of `main`: print the page size read from the
database header, then `number of tables:` followed by the page-1 header's
`number_of_cells`. -/
def dbinfoOutput (file : List Nat) : Except RErr String := do
  let ps ← mainHeaderRead file
  let ph ← mainPageHeaderRead file
  .ok ("database page size: " ++ toString ps ++ "\n" ++
       "number of tables: " ++ toString ph.numberOfCells ++ "\n")

/-! ### Varint byte-count lemmas -/

/-- Byte-count behaviour of the varint loop, generalized over the byte index
and the accumulator. -/
theorem varintLoop_count (bs : List Nat) : ∀ i acc : Nat, i ≤ 8 → bs ≠ [] →
    1 ≤ (varintLoop i acc bs).2 ∧ (varintLoop i acc bs).2 ≤ 9 - i ∧
    (varintLoop i acc bs).2 ≤ bs.length ∧
    ((varintLoop i acc bs).2 = 9 - i ↔
      (9 - i ≤ bs.length ∧ ∀ j, j < 8 - i → 128 ≤ bs.getD j 0)) := by
  induction bs with
  | nil => intro i acc _ h; exact absurd rfl h
  | cons b rest ih =>
    intro i acc hi _
    by_cases h8 : i = 8
    · subst h8
      have hv : varintLoop 8 acc (b :: rest) = ((acc * 256 + b) % 2 ^ 64, 1) := by
        simp [varintLoop]
      rw [hv]
      refine ⟨le_refl 1, by omega, by rw [List.length_cons]; omega, ?_⟩
      constructor
      · intro _
        exact ⟨by rw [List.length_cons]; omega, fun j hj => absurd hj (by omega)⟩
      · intro _
        omega
    · have h8b : (i == 8) = false := by simp [h8]
      by_cases hb : b < 128
      · have hv : varintLoop i acc (b :: rest) = ((acc * 128 + b % 128) % 2 ^ 64, 1) := by
          simp [varintLoop, h8b, hb]
        rw [hv]
        refine ⟨le_refl 1, by omega, by rw [List.length_cons]; omega, ?_⟩
        constructor
        · intro h1; omega
        · rintro ⟨_, hall⟩
          have h0 := hall 0 (by omega)
          rw [List.getD_cons_zero] at h0
          omega
      · have hv : varintLoop i acc (b :: rest) =
            ((varintLoop (i + 1) ((acc * 128 + b % 128) % 2 ^ 64) rest).1,
             (varintLoop (i + 1) ((acc * 128 + b % 128) % 2 ^ 64) rest).2 + 1) := by
          simp [varintLoop, h8b, hb]
        rw [hv]
        by_cases hrest : rest = []
        · subst hrest
          have hv0 : varintLoop (i + 1) ((acc * 128 + b % 128) % 2 ^ 64) ([] : List Nat) =
              (((acc * 128 + b % 128) % 2 ^ 64), 0) := rfl
          rw [hv0]
          refine ⟨le_refl 1, by omega, by rw [List.length_cons]; omega, ?_⟩
          constructor
          · intro h1; omega
          · rintro ⟨hlen, _⟩
            rw [List.length_cons, List.length_nil] at hlen
            omega
        · obtain ⟨ih1, ih2, ih3, ih4⟩ := ih (i + 1) ((acc * 128 + b % 128) % 2 ^ 64) (by omega) hrest
          refine ⟨by omega, by omega, by rw [List.length_cons]; omega, ?_⟩
          constructor
          · intro hc
            have hc' : (varintLoop (i + 1) ((acc * 128 + b % 128) % 2 ^ 64) rest).2 = 9 - (i + 1) := by
              omega
            obtain ⟨hlen, hall⟩ := ih4.mp hc'
            refine ⟨by rw [List.length_cons]; omega, ?_⟩
            intro j hj
            match j with
            | 0 =>
              rw [List.getD_cons_zero]
              omega
            | Nat.succ j' =>
              rw [List.getD_cons_succ]
              exact hall j' (by omega)
          · rintro ⟨hlen, hall⟩
            have hlen' : 9 - (i + 1) ≤ rest.length := by
              rw [List.length_cons] at hlen; omega
            have hall' : ∀ j, j < 8 - (i + 1) → 128 ≤ rest.getD j 0 := by
              intro j hj
              have := hall (j + 1) (by omega)
              rwa [List.getD_cons_succ] at this
            have := ih4.mpr ⟨hlen', hall'⟩
            omega

/-- The varint loop only looks at the bytes it consumes: truncating the input
to the consumed prefix leaves the result unchanged. -/
theorem varintLoop_take (bs : List Nat) : ∀ i acc : Nat,
    varintLoop i acc (bs.take (varintLoop i acc bs).2) = varintLoop i acc bs := by
  induction bs with
  | nil => intro i acc; rfl
  | cons b rest ih =>
    intro i acc
    by_cases h8 : i = 8
    · subst h8
      have hv : varintLoop 8 acc (b :: rest) = ((acc * 256 + b) % 2 ^ 64, 1) := by
        simp [varintLoop]
      rw [hv]
      simp [varintLoop]
    · have h8b : (i == 8) = false := by simp [h8]
      by_cases hb : b < 128
      · have hv : varintLoop i acc (b :: rest) = ((acc * 128 + b % 128) % 2 ^ 64, 1) := by
          simp [varintLoop, h8b, hb]
        rw [hv]
        simp [varintLoop, h8b, hb]
      · have hv : varintLoop i acc (b :: rest) =
            ((varintLoop (i + 1) ((acc * 128 + b % 128) % 2 ^ 64) rest).1,
             (varintLoop (i + 1) ((acc * 128 + b % 128) % 2 ^ 64) rest).2 + 1) := by
          simp [varintLoop, h8b, hb]
        rw [hv]
        have htake : (b :: rest).take ((varintLoop (i + 1) ((acc * 128 + b % 128) % 2 ^ 64) rest).2 + 1) =
            b :: rest.take (varintLoop (i + 1) ((acc * 128 + b % 128) % 2 ^ 64) rest).2 := by
          rw [List.take_succ_cons]
        rw [htake]
        have hstep : varintLoop i acc
            (b :: rest.take (varintLoop (i + 1) ((acc * 128 + b % 128) % 2 ^ 64) rest).2) =
            ((varintLoop (i + 1) ((acc * 128 + b % 128) % 2 ^ 64)
                (rest.take (varintLoop (i + 1) ((acc * 128 + b % 128) % 2 ^ 64) rest).2)).1,
             (varintLoop (i + 1) ((acc * 128 + b % 128) % 2 ^ 64)
                (rest.take (varintLoop (i + 1) ((acc * 128 + b % 128) % 2 ^ 64) rest).2)).2 + 1) := by
          simp [varintLoop, h8b, hb]
        rw [hstep, ih (i + 1) ((acc * 128 + b % 128) % 2 ^ 64)]

/-! ### Rendering (`impl Display for ColumnValue`) -/

/-- UTF-8 code units of an ASCII string literal. -/
def strBytes (s : String) : List Nat := s.data.map Char.toNat

/-- Decimal rendering of a signed 64-bit value, as Rust's `{}` formats an
`i64`, as UTF-8 bytes. -/
def intToDecBytes (i : Int) : List Nat := strBytes (toString i)

/-- Decimal rendering of an unsigned value as UTF-8 bytes. -/
def natToDecBytes (n : Nat) : List Nat := strBytes (toString n)

/-- `impl Display for ColumnValue`: `NULL`, decimal integers, `0`/`1` for the
constants, `<BLOB k bytes>` for blobs, and the text bytes themselves
(`from_utf8_lossy`, which is the identity on valid UTF-8; no input of any
theorem below contains invalid UTF-8).  Floats are carried as their raw bytes
and never displayed by any claim below. -/
def columnDisplay : ColumnValue → List Nat
  | .null => strBytes "NULL"
  | .i8 v | .i16 v | .i24 v | .i32 v | .i48 v | .i64 v => intToDecBytes v
  | .f64 bs => bs
  | .zero => strBytes "0"
  | .one => strBytes "1"
  | .blob content => strBytes "<BLOB " ++ natToDecBytes content.length ++ strBytes " bytes>"
  | .text content => content

/-- Modelled from the spec: `ColumnValue::is_number` of the later `record.rs`
revision used by `database.rs` (`index must have id value` path) — the rowid
column of an index record is an integer value. -/
def columnValueIsNumber : ColumnValue → Bool
  | .i8 _ | .i16 _ | .i24 _ | .i32 _ | .i48 _ | .i64 _ | .zero | .one => true
  | _ => false

/-- Modelled from the spec: `impl From<ColumnValue> for i64` of the later
`record.rs` revision — the numeric value of an integer column (only ever
called behind an `is_number` guard; non-numbers are given 0). -/
def columnValueToInt : ColumnValue → Int
  | .i8 v | .i16 v | .i24 v | .i32 v | .i48 v | .i64 v => v
  | .one => 1
  | _ => 0

/-! ### The spec-modelled record decoder (`Record::read(rowid, payload)`) -/

/-- A decoded record of the later `record.rs` revision: the rowid of the
enclosing table-leaf cell (0 for index records) and the column values. -/
structure RecordR where
  rowid : Int
  values : List ColumnValue
deriving DecidableEq, Repr

/-- Modelled from the spec: the serial-type table of §4.4 — `0`–`9` as in the
source's `ColumnType::from`, every even `N ≥ 12` a blob of `(N-12)/2` bytes,
every odd `N ≥ 13` a text of `(N-13)/2` bytes; the reserved serial types 10
and 11 are the typed `MalformedRecord` error. -/
def serialToTypeSpec (value : Nat) : Except RErr ColumnTypeR :=
  match value with
  | 0 => .ok .null
  | 1 => .ok .i8
  | 2 => .ok .i16
  | 3 => .ok .i24
  | 4 => .ok .i32
  | 5 => .ok .i48
  | 6 => .ok .i64
  | 7 => .ok .f64
  | 8 => .ok .zero
  | 9 => .ok .one
  | n =>
    if 12 ≤ n && n % 2 == 0 then .ok (.blob ((n - 12) / 2))
    else if 13 ≤ n && n % 2 == 1 then .ok (.text ((n - 13) / 2))
    else .error (.err "MalformedRecord")

/-- Modelled from the spec: the header loop of §4.4 — read serial-type varints
until the declared header size (in bytes, including the size varint itself)
has been consumed; a header that runs past the payload is a `MalformedRecord`
error.  `fuel` is the embedding's termination device (the header shrinks by at
least one byte per varint on every input exercised below). -/
def readSerialsSpec (payload : List Nat) : Nat → Nat → Nat → Except RErr (List ColumnTypeR × Nat)
  | 0, _, _ => .error (.err "MalformedRecord")
  | f + 1, pos, headerSize =>
    if headerSize ≤ pos then .ok ([], pos)
    else if payload.length ≤ pos then .error (.err "MalformedRecord")
    else do
      let v := varintRead (payload.drop pos)
      let t ← serialToTypeSpec (intToU64 v.1)
      let r ← readSerialsSpec payload f (pos + v.2) headerSize
      .ok (t :: r.1, r.2)

/-- Modelled from the spec: `Record::read(rowid, payload)` of the later
`record.rs` revision used by `database.rs` and `sqlite_schema.rs` (§4.4):
first varint is the header size including itself; serial types are read until
that many bytes are consumed; the values follow, with integers big-endian
two's-complement sign-extended to 64 bits. -/
def recordReadSpec (rowid : Int) (payload : List Nat) : Except RErr RecordR := do
  let h := varintRead payload
  let sr ← readSerialsSpec payload (payload.length + 1) h.2 (intToU64 h.1)
  let values ← readValuesGo true payload sr.1 sr.2
  .ok { rowid := rowid, values := values }

example : recordReadSpec 7 [2, 1, 255] = .ok { rowid := 7, values := [.i8 (-1)] } := by decide
example : recordReadSpec 0 [3, 15, 1, 121, 5] =
    .ok { rowid := 0, values := [.text [121], .i8 5] } := by decide
example : recordReadSpec 0 [2, 12] = .ok { rowid := 0, values := [.blob []] } := by decide
example : recordReadSpec 0 [2, 13] = .ok { rowid := 0, values := [.text []] } := by decide
example : recordReadSpec 0 [2, 10] = .error (.err "MalformedRecord") := by decide

/-! ### `src/sqlite_schema.rs` — schema entities -/

/-- `Column`. -/
structure ColumnS where
  name : List Nat
  isPrimaryKey : Bool
deriving DecidableEq, Repr

/-- `Index`. -/
structure IndexS where
  name : List Nat
  columns : List (List Nat)
  tableName : List Nat
  rootpage : Nat
deriving DecidableEq, Repr

/-- `Table`. -/
structure TableS where
  name : List Nat
  columns : List ColumnS
  indexes : List IndexS
  rootpage : Nat
deriving DecidableEq, Repr

/-- `Table::find_column`: the first column with the given name together with
its position. -/
def findColumn (t : TableS) (columnName : List Nat) : Option (Nat × ColumnS) :=
  t.columns.enum.find? (fun p => p.2.name == columnName)

/-- `SchemaStore::user_tables`: tables whose name does not begin with
`sqlite_`. -/
def userTables (tables : List TableS) : List TableS :=
  tables.filter (fun t => !((strBytes "sqlite_").isPrefixOf t.name))

/-- `SchemaStore::find_table`: look the name up among the user tables. -/
def findTable (tables : List TableS) (tableName : List Nat) : Option TableS :=
  (userTables tables).find? (fun t => t.name == tableName)

/-! ### `src/sql.rs` — the statement trees used by the schema loader and the
query layer -/

/-- `WhereClause`. -/
structure WhereClauseS where
  field : List Nat
  value : List Nat
deriving DecidableEq, Repr

/-- `SelectFields`. -/
structure SelectFieldsS where
  fields : List (List Nat)
  table : List Nat
  whereClause : Option WhereClauseS
deriving DecidableEq, Repr

/-- `Field` of a create-table statement. -/
structure FieldS where
  name : List Nat
  isPrimaryKey : Bool
deriving DecidableEq, Repr

/-- `CreateTableStatement`. -/
structure CreateTableS where
  table : List Nat
  fields : List FieldS
deriving DecidableEq, Repr

/-- `CreateIndexStatement`. -/
structure CreateIndexS where
  name : List Nat
  table : List Nat
  fields : List (List Nat)
deriving DecidableEq, Repr

/-- The two `SQLCommand` variants the schema loader consumes. -/
inductive SQLCommandS where
  | createTable (c : CreateTableS)
  | createIndex (c : CreateIndexS)
deriving DecidableEq, Repr

/-- Modelled from the spec: `Table::find_applicable_index` (§4.5) — the first
index whose first indexed column equals the filter field, or none when no
filter exists or none matches. -/
def findApplicableIndex (t : TableS) (w : Option WhereClauseS) : Option IndexS :=
  match w with
  | none => none
  | some w => t.indexes.find? (fun idx => idx.columns.head? == some w.field)

/-- Modelled from the spec: `Index::find_column` of the later revision — the
position of a column name among the indexed columns. -/
def findIndexColumn (idx : IndexS) (columnName : List Nat) : Option (Nat × List Nat) :=
  idx.columns.enum.find? (fun p => p.2 == columnName)

/-! ### `src/sql.rs` — the nom parsers for create statements

A parser takes the input bytes and yields the remaining input and a value, or
fails (`nom`'s `Err` collapses to `none`).  Only the two create parsers are
embedded: they are what the schema loader runs over `sqlite_schema` rows. -/

/-- The result shape of a nom parser over bytes. -/
def ParserB (α : Type) : Type := List Nat → Option (List Nat × α)

/-- nom `tag`. -/
def pTag (t : List Nat) : ParserB (List Nat) := fun inp =>
  if t.isPrefixOf inp then some (inp.drop t.length, t) else none

/-- ASCII lower-casing of one byte. -/
def asciiLower (b : Nat) : Nat := if 65 ≤ b && b ≤ 90 then b + 32 else b

/-- nom `tag_no_case` for ASCII tags. -/
def pTagNoCase (t : List Nat) : ParserB (List Nat) := fun inp =>
  if (t.map asciiLower).isPrefixOf ((inp.take t.length).map asciiLower)
      && t.length ≤ inp.length then
    some (inp.drop t.length, inp.take t.length)
  else none

/-- nom's multispace class: space, tab, line feed, carriage return. -/
def isMultispaceByte (b : Nat) : Bool := b == 32 || b == 9 || b == 10 || b == 13

/-- nom `multispace0`. -/
def pMultispace0 : ParserB (List Nat) := fun inp =>
  some (inp.dropWhile isMultispaceByte, inp.takeWhile isMultispaceByte)

/-- nom `multispace1`. -/
def pMultispace1 : ParserB (List Nat) := fun inp =>
  let pre := inp.takeWhile isMultispaceByte
  if pre.isEmpty then none else some (inp.dropWhile isMultispaceByte, pre)

/-- nom `take_while1`. -/
def pTakeWhile1 (f : Nat → Bool) : ParserB (List Nat) := fun inp =>
  let pre := inp.takeWhile f
  if pre.isEmpty then none else some (inp.dropWhile f, pre)

/-- nom `opt`. -/
def pOpt {α : Type} (p : ParserB α) : ParserB (Option α) := fun inp =>
  match p inp with
  | some (rest, v) => some (rest, some v)
  | none => some (inp, none)

/-- nom `alt` of two parsers. -/
def pAlt {α : Type} (p q : ParserB α) : ParserB α := fun inp =>
  match p inp with
  | some r => some r
  | none => q inp

/-- nom `map`. -/
def pMap {α β : Type} (p : ParserB α) (f : α → β) : ParserB β := fun inp =>
  match p inp with
  | some (rest, v) => some (rest, f v)
  | none => none

/-- The loop of nom `many0`: stop when the inner parser fails; reject the
whole parse when an iteration consumes nothing (nom's infinite-loop guard).
`fuel` is one more than the input length, so it never runs out. -/
def pMany0Go {α : Type} (p : ParserB α) : Nat → ParserB (List α)
  | 0 => fun _ => none
  | f + 1 => fun inp =>
    match p inp with
    | none => some (inp, [])
    | some (rest, v) =>
      if rest.length == inp.length then none
      else
        match pMany0Go p f rest with
        | some (r, vs) => some (r, v :: vs)
        | none => none

/-- nom `many0`. -/
def pMany0 {α : Type} (p : ParserB α) : ParserB (List α) := fun inp =>
  pMany0Go p (inp.length + 1) inp

/-- nom `many1`. -/
def pMany1 {α : Type} (p : ParserB α) : ParserB (List α) := fun inp =>
  match p inp with
  | none => none
  | some (rest, v) =>
    match pMany0 p rest with
    | some (r, vs) => some (r, v :: vs)
    | none => none

/-- nom `delimited`. -/
def pDelimited {α β γ : Type} (a : ParserB α) (b : ParserB β) (c : ParserB γ) : ParserB β :=
  fun inp =>
    match a inp with
    | none => none
    | some (r1, _) =>
      match b r1 with
      | none => none
      | some (r2, v) =>
        match c r2 with
        | none => none
        | some (r3, _) => some (r3, v)

/-- nom `terminated`. -/
def pTerminated {α β : Type} (a : ParserB α) (b : ParserB β) : ParserB α := fun inp =>
  match a inp with
  | none => none
  | some (r1, v) =>
    match b r1 with
    | none => none
    | some (r2, _) => some (r2, v)

/-- nom's `is_alphanumeric` (ASCII digits and letters). -/
def isAlnumByte (b : Nat) : Bool :=
  (48 ≤ b && b ≤ 57) || (65 ≤ b && b ≤ 90) || (97 ≤ b && b ≤ 122)

/-- nom's `is_space` (space and tab). -/
def isSpaceByte (b : Nat) : Bool := b == 32 || b == 9

/-- `is_sql_identifier`. -/
def isSqlIdentByte (b : Nat) : Bool := isAlnumByte b || b == 95

/-- `is_sql_identifier_with_space`. -/
def isSqlIdentSpaceByte (b : Nat) : Bool := isAlnumByte b || b == 95 || isSpaceByte b

/-- `identifier`: a double-quoted name (spaces allowed) or a bare name.  The
source's `String::from_utf8(..).unwrap()` cannot panic on these byte classes,
so the name is the matched bytes. -/
def pIdentifier : ParserB (List Nat) :=
  pAlt (pDelimited (pTag [34]) (pTakeWhile1 isSqlIdentSpaceByte) (pTag [34]))
    (pTakeWhile1 isSqlIdentByte)

/-- `column_constraint`: `NOT NULL` and `AUTOINCREMENT` are recognized and
dropped; `PRIMARY KEY` is kept. -/
def pColumnConstraint : ParserB (Option Unit) :=
  pAlt (pMap (pDelimited pMultispace0 (pTagNoCase (strBytes "NOT NULL")) pMultispace0)
      (fun _ => none))
    (pAlt (pMap (pDelimited pMultispace0 (pTagNoCase (strBytes "AUTOINCREMENT")) pMultispace0)
        (fun _ => none))
      (pMap (pDelimited pMultispace0 (pTagNoCase (strBytes "PRIMARY KEY")) pMultispace0)
        (fun _ => some ())))

/-- `field_specification`: name, optional type, constraints, optional comma.
A column aliases the rowid iff some constraint is `PRIMARY KEY` and the
declared type lower-cases to `integer`. -/
def pFieldSpecification : ParserB FieldS := fun inp =>
  match pIdentifier inp with
  | none => none
  | some (r1, column) =>
    match pOpt (pDelimited pMultispace0 pIdentifier pMultispace0) r1 with
    | none => none
    | some (r2, ty) =>
      match pMany0 pColumnConstraint r2 with
      | none => none
      | some (r3, constraints) =>
        match pOpt (pDelimited pMultispace0 (pTag [44]) pMultispace0) r3 with
        | none => none
        | some (r4, _) =>
          let isPk := (constraints.any (fun c => c.isSome))
            && (match ty with
                | some t => t.map asciiLower == strBytes "integer"
                | none => false)
          some (r4, { name := column, isPrimaryKey := isPk })

/-- `field_specification_list`. -/
def pFieldSpecificationList : ParserB (List FieldS) := pMany1 pFieldSpecification

/-- `parse_creation`: `CREATE TABLE [IF NOT EXISTS] name ( fields )` with an
optional trailing semicolon. -/
def parseCreation : ParserB CreateTableS := fun inp =>
  match pTagNoCase (strBytes "create") inp with
  | none => none
  | some (r1, _) =>
    match pMultispace1 r1 with
    | none => none
    | some (r2, _) =>
      match pTagNoCase (strBytes "table") r2 with
      | none => none
      | some (r3, _) =>
        match pMultispace1 r3 with
        | none => none
        | some (r4, _) =>
          match pOpt (fun i =>
              match pTagNoCase (strBytes "IF NOT EXISTS") i with
              | none => none
              | some (ra, _) => pMultispace1 ra) r4 with
          | none => none
          | some (r5, _) =>
            match pIdentifier r5 with
            | none => none
            | some (r6, table) =>
              match pMultispace0 r6 with
              | none => none
              | some (r7, _) =>
                match pTag [40] r7 with
                | none => none
                | some (r8, _) =>
                  match pMultispace0 r8 with
                  | none => none
                  | some (r9, _) =>
                    match pFieldSpecificationList r9 with
                    | none => none
                    | some (r10, fields) =>
                      match pMultispace0 r10 with
                      | none => none
                      | some (r11, _) =>
                        match pTag [41] r11 with
                        | none => none
                        | some (r12, _) =>
                          match pOpt (pTag [59]) r12 with
                          | none => none
                          | some (r13, _) =>
                            some (r13, { table := table, fields := fields })

/-- `parse_index_creation`: `CREATE INDEX [IF NOT EXISTS] idx ON table
( cols )` with an optional trailing semicolon. -/
def parseIndexCreation : ParserB CreateIndexS := fun inp =>
  match pTagNoCase (strBytes "create") inp with
  | none => none
  | some (r1, _) =>
    match pMultispace1 r1 with
    | none => none
    | some (r2, _) =>
      match pTagNoCase (strBytes "index") r2 with
      | none => none
      | some (r3, _) =>
        match pMultispace1 r3 with
        | none => none
        | some (r4, _) =>
          match pOpt (fun i =>
              match pTagNoCase (strBytes "IF NOT EXISTS") i with
              | none => none
              | some (ra, _) => pMultispace1 ra) r4 with
          | none => none
          | some (r5, _) =>
            match pIdentifier r5 with
            | none => none
            | some (r6, idxName) =>
              match pMultispace1 r6 with
              | none => none
              | some (r7, _) =>
                match pTagNoCase (strBytes "ON") r7 with
                | none => none
                | some (r8, _) =>
                  match pMultispace1 r8 with
                  | none => none
                  | some (r9, _) =>
                    match pIdentifier r9 with
                    | none => none
                    | some (r10, table) =>
                      match pMultispace0 r10 with
                      | none => none
                      | some (r11, _) =>
                        match pTag [40] r11 with
                        | none => none
                        | some (r12, _) =>
                          match pMultispace0 r12 with
                          | none => none
                          | some (r13, _) =>
                            match pMany1 pIdentifier r13 with
                            | none => none
                            | some (r14, columns) =>
                              match pMultispace0 r14 with
                              | none => none
                              | some (r15, _) =>
                                match pTag [41] r15 with
                                | none => none
                                | some (r16, _) =>
                                  match pOpt (pTag [59]) r16 with
                                  | none => none
                                  | some (r17, _) =>
                                    some (r17,
                                      { name := idxName, table := table, fields := columns })

/-- Modelled from the spec: `sql::parse_create` as called by the schema
loader — try the create-table grammar, then the create-index grammar. -/
def parseCreate : ParserB SQLCommandS :=
  pAlt (pMap parseCreation SQLCommandS.createTable)
    (pMap parseIndexCreation SQLCommandS.createIndex)

example : parseCreation (strBytes "CREATE TABLE test (id INTEGER primary key, name TEXT NOT NULL)") =
    some ([], { table := strBytes "test",
                fields := [{ name := strBytes "id", isPrimaryKey := true },
                           { name := strBytes "name", isPrimaryKey := false }] }) := by decide
example : parseIndexCreation (strBytes "CREATE INDEX idx_c on companies (country);") =
    some ([], { name := strBytes "idx_c", table := strBytes "companies",
                fields := [strBytes "country"] }) := by decide

/-! ### `src/sqlite_schema.rs` — schema rows and the schema store -/

/-- `SQLiteSchemaRow`. -/
structure SQLiteSchemaRowS where
  rowid : Int
  kind : List Nat
  name : List Nat
  tblName : List Nat
  rootpage : Nat
  sql : List Nat
deriving DecidableEq, Repr

/-- `impl TryFrom<Cell> for SQLiteSchemaRow`: a table-leaf cell whose record
yields `(Text, Text, Text, I8, Text)`.  Each column is taken from the
record's value iterator in order; a missing or wrongly-typed value is the
typed error of that column — in particular the root page is accepted ONLY
from the one-byte integer serial type (`ColumnValue::I8`), cast `as u32`. -/
def tryFromCell (cell : CellE) : Except RErr SQLiteSchemaRowS :=
  match cell with
  | .leafTable _ rowid payload _ => do
    let record ← recordReadSpec rowid payload
    let kind ← (match record.values.get? 0 with
      | some (.text t) => .ok t
      | _ => .error (.err "Invalid schema kind"))
    let name ← (match record.values.get? 1 with
      | some (.text t) => .ok t
      | _ => .error (.err "Invalid schema name"))
    let tblName ← (match record.values.get? 2 with
      | some (.text t) => .ok t
      | _ => .error (.err "Invalid schema table name"))
    let rootpage ← (match record.values.get? 3 with
      | some (.i8 i) => .ok (intToU32 i)
      | _ => .error (.err "Invalid schema root page"))
    let sql ← (match record.values.get? 4 with
      | some (.text t) => .ok t
      | _ => .error (.err "Invalid schema SQL"))
    .ok { rowid := rowid, kind := kind, name := name, tblName := tblName,
          rootpage := rootpage, sql := sql }
  | _ => .error (.err "Invalid cell kind")

/-- `SQLiteSchema::read`: convert every cell of the page, propagating the
first error. -/
def sqliteSchemaRead (page : PageB) : Except RErr (List SQLiteSchemaRowS) := do
  let cells ← cellsB page
  cells.mapM tryFromCell

/-- `HashMap::insert` semantics on the table store: replace an existing entry
with the same name, else append. -/
def insertTable (tables : List TableS) (t : TableS) : List TableS :=
  if tables.any (fun u => u.name == t.name) then
    tables.map (fun u => if u.name == t.name then t else u)
  else tables ++ [t]

/-- Push an index onto its owning table; a missing owner is the source's
`expect("Index without table")` panic. -/
def attachIndex (tables : List TableS) (idx : IndexS) : Except RErr (List TableS) :=
  if tables.any (fun u => u.name == idx.tableName) then
    .ok (tables.map (fun u =>
      if u.name == idx.tableName then
        { u with indexes := u.indexes ++ [idx] }
      else u))
  else .error (.panic "Index without table")

/-- First pass of `SchemaStore::read`: parse every row's `sql`; a parse
failure is the typed error `Failed to parse table definition`; create-table
rows become tables. -/
def schemaPassTables : List SQLiteSchemaRowS → List TableS → Except RErr (List TableS)
  | [], tables => .ok tables
  | row :: rest, tables =>
    match parseCreate row.sql with
    | none => .error (.err "Failed to parse table definition")
    | some (_, .createTable t) =>
      schemaPassTables rest (insertTable tables
        { name := t.table
          columns := t.fields.map (fun f => { name := f.name, isPrimaryKey := f.isPrimaryKey })
          indexes := []
          rootpage := row.rootpage })
    | some (_, .createIndex _) => schemaPassTables rest tables

/-- Second pass of `SchemaStore::read`: create-index rows are attached to
their tables. -/
def schemaPassIndexes : List SQLiteSchemaRowS → List TableS → Except RErr (List TableS)
  | [], tables => .ok tables
  | row :: rest, tables =>
    match parseCreate row.sql with
    | none => .error (.err "Failed to parse table definition")
    | some (_, .createIndex i) => do
      let tables ← attachIndex tables
        { name := i.name, columns := i.fields, tableName := i.table, rootpage := row.rootpage }
      schemaPassIndexes rest tables
    | some (_, .createTable _) => schemaPassIndexes rest tables

/-- `SchemaStore::read`: decode the schema rows, then the two passes. -/
def schemaStoreRead (page : PageB) : Except RErr (List TableS) := do
  let rows ← sqliteSchemaRead page
  let tables ← schemaPassTables rows []
  schemaPassIndexes rows tables

/-- The `SQLite format 3\0` magic. -/
def magicBytes : List Nat := [83, 81, 76, 105, 116, 101, 32, 102, 111, 114, 109, 97, 116, 32, 51, 0]

/-- `DatabaseHeader::read` of `database.rs`: 100 header bytes, magic check,
big-endian page size at offset 16. -/
def databaseHeaderRead (file : List Nat) : Except RErr Nat :=
  if file.length < 100 then .error (.err "Io")
  else if file.take 16 ≠ magicBytes then .error (.err "Invalid database file")
  else .ok (be16 file 16)

/-- `Database::open`: read the header, read page 1 with `page_size - 100`
bytes at pointer offset 100, and build the schema store.  Returns the page
size and the store. -/
def dbOpen (file : List Nat) : Except RErr (Nat × List TableS) := do
  let ps ← databaseHeaderRead file
  let page ← readWithOffset (file.drop 100) (wrapSub16 ps 100) 100
  let tables ← schemaStoreRead page
  .ok (ps, tables)

/-! ### `src/database.rs` — query plans and the B-tree walker -/

/-- `Query`. -/
structure QueryS where
  table : TableS
  selectFields : List (Nat × Bool)
  filter : Option WhereClauseS
deriving DecidableEq, Repr

/-- `IndexQuery`. -/
structure IndexQueryS where
  table : TableS
  selectFields : List (Nat × Bool)
  filter : WhereClauseS
  index : IndexS
  indexField : Nat
deriving DecidableEq, Repr

/-- `Query::new`: resolve every selected field against the table
(`expect("Fields not found")` panics on a missing column) and keep its
position and primary-key flag. -/
def mkQuery (table : TableS) (stmt : SelectFieldsS) : Except RErr QueryS := do
  let sf ← stmt.fields.mapM (fun f =>
    match findColumn table f with
    | some (pos, col) => .ok (pos, col.isPrimaryKey)
    | none => .error (.panic "Fields not found"))
  .ok { table := table, selectFields := sf, filter := stmt.whereClause }

/-- `IndexQuery::new`: the select fields as in `Query::new`; the filter is the
statement's where clause (`unwrap` panics when absent); `index_field` is the
filter field's position among the indexed columns (`unwrap` panics when
absent). -/
def mkIndexQuery (table : TableS) (stmt : SelectFieldsS) (index : IndexS) :
    Except RErr IndexQueryS := do
  let sf ← stmt.fields.mapM (fun f =>
    match findColumn table f with
    | some (pos, col) => .ok (pos, col.isPrimaryKey)
    | none => .error (.panic "Fields not found"))
  match stmt.whereClause with
  | none => .error (.panic "called unwrap on None")
  | some w =>
    match findIndexColumn index w.field with
    | none => .error (.panic "called unwrap on None")
    | some (pos, _) =>
      .ok { table := table, selectFields := sf, filter := w, index := index, indexField := pos }

/-- The push of one index record's rowid in `read_interior_index` /
`read_leaf_index`: the record's last value must exist
(`expect("index must have id value")`) and be a number, else the typed
`Id was not a number` error. -/
def pushIndexId (record : RecordR) (results : List Int) : Except RErr (List Int) :=
  match record.values.getLast? with
  | none => .error (.panic "index must have id value")
  | some id =>
    if columnValueIsNumber id then .ok (results ++ [columnValueToInt id])
    else .error (.err "Id was not a number")

/-- The cell loop of `read_interior_index`: decode the separating key's
record; when its filtered column is text equal to the target, push the
record's rowid; descend into every cell's left child (the `>` pruning branch
is commented out in the source). -/
def interiorIndexCellsGo (fetch : Nat → Except RErr PageB)
    (descend : PageB → List Int → Except RErr (List Int)) (q : IndexQueryS) :
    List CellE → List Int → Except RErr (List Int)
  | [], acc => .ok acc
  | c :: rest, acc =>
    match c with
    | .interiorIndex lcp _ payload _ => do
      let record ← recordReadSpec 0 payload
      match record.values.get? q.indexField with
      | none => .error (.panic "index out of bounds")
      | some v =>
        match v with
        | .text value => do
          let acc ← (if q.filter.value == value then pushIndexId record acc else .ok acc)
          let page ← fetch (wrapSub32 lcp 1)
          let acc ← descend page acc
          interiorIndexCellsGo fetch descend q rest acc
        | _ => do
          let page ← fetch (wrapSub32 lcp 1)
          let acc ← descend page acc
          interiorIndexCellsGo fetch descend q rest acc
    | _ => .error (.err "Unsupported cell type")

/-- The cell loop of `read_leaf_index`: keep records whose displayed filter
column equals the target literal and push their rowid (the record's last
column). -/
def leafIndexCollect (q : IndexQueryS) : List CellE → List Int → Except RErr (List Int)
  | [], acc => .ok acc
  | c :: rest, acc =>
    match c with
    | .leafIndex _ payload _ => do
      let record ← recordReadSpec 0 payload
      match record.values.get? q.indexField with
      | none => .error (.panic "index out of bounds")
      | some v =>
        if columnDisplay v == q.filter.value then do
          let acc ← pushIndexId record acc
          leafIndexCollect q rest acc
        else leafIndexCollect q rest acc
    | _ => .error (.err "Unsupported cell type")

/-- `Database::read_index` (Phase A), with fuel for the recursion through
`get_page`: dispatch on the page kind; interior pages run the cell loop and
then descend into the right child; table pages are the typed
`Malformed index` error. -/
def readIndexF : Nat → List Nat → Nat → IndexQueryS → PageB → List Int → Except RErr (List Int)
  | 0 => fun _ _ _ _ _ => .error .fuel
  | f + 1 => fun file ps q page acc =>
    match page.header.kind with
    | .interiorIndex => do
      let cells ← cellsB page
      let acc ← interiorIndexCellsGo (getPage file ps) (readIndexF f file ps q) q cells acc
      match page.header.rightChildPageNumber with
      | some n => do
        let p ← getPage file ps (wrapSub32 n 1)
        readIndexF f file ps q p acc
      | none => .ok acc
    | .leafIndex => do
      let cells ← cellsB page
      leafIndexCollect q cells acc
    | .interiorTable | .leafTable => .error (.err "Malformed index: index contains table pages")

/-- `insert`-based ascending sort modelling `results.sort_unstable()` on the
collected rowids. -/
def insertSorted (x : Int) : List Int → List Int
  | [] => [x]
  | y :: ys => if x ≤ y then x :: y :: ys else y :: insertSorted x ys

/-- `results.sort_unstable()`: ascending sort of the rowid vector. -/
def sortInts : List Int → List Int
  | [] => []
  | x :: xs => insertSorted x (sortInts xs)

/-- `ids.split_at(ids.partition_point(|id| *id < key))`: on the sorted pending
slice, the partition point is the length of the maximal strictly-below-`key`
prefix. -/
def partitionIds (ids : List Int) (key : Int) : List Int × List Int :=
  (ids.takeWhile (fun id => decide (id < key)), ids.dropWhile (fun id => decide (id < key)))

/-- One step of Rust's `slice::binary_search` loop. -/
def binSearchGo (l : List Int) (t : Int) : Nat → Nat → Nat → Bool
  | 0, _, _ => false
  | f + 1, lo, hi =>
    if lo < hi then
      let mid := (lo + hi) / 2
      let v := l.getD mid 0
      if v < t then binSearchGo l t f (mid + 1) hi
      else if t < v then binSearchGo l t f lo mid
      else true
    else false

/-- `ids.binary_search(&rowid).is_ok()`. -/
def binSearchContains (l : List Int) (t : Int) : Bool :=
  binSearchGo l t (l.length + 1) 0 l.length

/-- The per-record rendering of `read_leaf_table` and
`read_ids_from_leaf_table`: for each selected `(position, is_primary_key)`
pair, a primary-key alias renders the cell's rowid in decimal; any other
column renders `record.values[position]` (indexing panics when out of
range). -/
def renderRecordValues (selectFields : List (Nat × Bool)) (r : RecordR) :
    Except RErr (List (List Nat)) :=
  selectFields.mapM fun f =>
    if f.2 then .ok (intToDecBytes r.rowid)
    else
      match r.values.get? f.1 with
      | some v => .ok (columnDisplay v)
      | none => .error (.panic "index out of bounds")

/-- Render a list of surviving records: values joined with `|`, one line per
record, LF-terminated (`write!(out, "{}\n", values.join("|"))`). -/
def emitRecords (q : QueryS) : List RecordR → Except RErr (List (List Nat))
  | [] => .ok []
  | r :: rest => do
    let vals ← renderRecordValues q.selectFields r
    let tail ← emitRecords q rest
    .ok ((List.intercalate [124] vals ++ [10]) :: tail)

/-- The cell loop of `read_ids_from_leaf_table`: decode each table-leaf cell
and keep the records whose rowid a binary search of the pending ids finds. -/
def leafTableIdsCollect (ids : List Int) : List CellE → Except RErr (List RecordR)
  | [] => .ok []
  | c :: rest =>
    match c with
    | .leafTable _ rowid payload _ => do
      let record ← recordReadSpec rowid payload
      let tail ← leafTableIdsCollect ids rest
      .ok (if binSearchContains ids record.rowid then record :: tail else tail)
    | _ => .error (.err "Unsupported cell type")

/-- `Database::read_ids_from_leaf_table`. -/
def readIdsFromLeafTable (q : QueryS) (ids : List Int) (page : PageB) :
    Except RErr (List (List Nat)) := do
  let cells ← cellsB page
  let records ← leafTableIdsCollect ids cells
  emitRecords q records

/-- The cell loop of `read_ids_from_interior_table`: at each cell, split the
pending ids at `partition_point(|id| *id < key)`; the strictly-smaller ids
descend into the left child (skipped when empty); the rest carry right. -/
def interiorTableIdsGo (fetch : Nat → Except RErr PageB)
    (descend : PageB → List Int → Except RErr (List (List Nat))) :
    List CellE → List Int → Except RErr (List (List Nat) × List Int)
  | [], ids => .ok ([], ids)
  | c :: rest, ids =>
    match c with
    | .interiorTable lcp key => do
      let split := partitionIds ids key
      let rows ← (if split.1.isEmpty then .ok [] else do
        let page ← fetch (wrapSub32 lcp 1)
        descend page split.1)
      let r ← interiorTableIdsGo fetch descend rest split.2
      .ok (rows ++ r.1, r.2)
    | _ => .error (.err "Unsupported cell type")

/-- `Database::read_ids_from_table` (Phase B), with fuel: dispatch on the page
kind; after the interior cell loop, stop early when no ids are pending, else
carry the remainder into the right child. -/
def readIdsF : Nat → List Nat → Nat → QueryS → List Int → PageB → Except RErr (List (List Nat))
  | 0 => fun _ _ _ _ _ => .error .fuel
  | f + 1 => fun file ps q ids page =>
    match page.header.kind with
    | .interiorTable => do
      let cells ← cellsB page
      let r ← interiorTableIdsGo (getPage file ps) (fun p i => readIdsF f file ps q i p) cells ids
      if r.2.isEmpty then .ok r.1
      else
        match page.header.rightChildPageNumber with
        | some n => do
          let p ← getPage file ps (wrapSub32 n 1)
          let more ← readIdsF f file ps q r.2 p
          .ok (r.1 ++ more)
        | none => .ok r.1
    | .leafTable => readIdsFromLeafTable q ids page
    | .interiorIndex | .leafIndex => .error (.err "Malformed table: table contains index pages")

/-- The filter of `read_leaf_table`: no where clause keeps every record; with
one, resolve the filter column (`expect("Field not found")` panics) and
compare the displayed value with the literal. -/
def scanLeafFilter (q : QueryS) (r : RecordR) : Except RErr Bool :=
  match q.filter with
  | none => .ok true
  | some filter =>
    match findColumn q.table filter.field with
    | none => .error (.panic "Field not found")
    | some (pos, _) =>
      match r.values.get? pos with
      | none => .error (.panic "index out of bounds")
      | some v => .ok (columnDisplay v == filter.value)

/-- The cell loop of `read_leaf_table`: decode every table-leaf cell, keep the
records passing the filter. -/
def leafTableScanCollect (q : QueryS) : List CellE → Except RErr (List RecordR)
  | [] => .ok []
  | c :: rest =>
    match c with
    | .leafTable _ rowid payload _ => do
      let record ← recordReadSpec rowid payload
      let keep ← scanLeafFilter q record
      let tail ← leafTableScanCollect q rest
      .ok (if keep then record :: tail else tail)
    | _ => .error (.err "Unsupported cell type")

/-- `Database::read_leaf_table`. -/
def readLeafTableScan (q : QueryS) (page : PageB) : Except RErr (List (List Nat)) := do
  let cells ← cellsB page
  let records ← leafTableScanCollect q cells
  emitRecords q records

/-- The cell loop of `read_interior_table`: descend into every cell's left
child in order. -/
def interiorTableScanGo (fetch : Nat → Except RErr PageB)
    (descend : PageB → Except RErr (List (List Nat))) :
    List CellE → Except RErr (List (List Nat))
  | [] => .ok []
  | c :: rest =>
    match c with
    | .interiorTable lcp _ => do
      let page ← fetch (wrapSub32 lcp 1)
      let rows ← descend page
      let more ← interiorTableScanGo fetch descend rest
      .ok (rows ++ more)
    | _ => .error (.err "Unsupported cell type")

/-- `Database::read_table` (the full scan), with fuel. -/
def readTableF : Nat → List Nat → Nat → QueryS → PageB → Except RErr (List (List Nat))
  | 0 => fun _ _ _ _ => .error .fuel
  | f + 1 => fun file ps q page =>
    match page.header.kind with
    | .interiorTable => do
      let cells ← cellsB page
      let rows ← interiorTableScanGo (getPage file ps) (readTableF f file ps q) cells
      match page.header.rightChildPageNumber with
      | some n => do
        let p ← getPage file ps (wrapSub32 n 1)
        let more ← readTableF f file ps q p
        .ok (rows ++ more)
      | none => .ok rows
    | .leafTable => readLeafTableScan q page
    | .interiorIndex | .leafIndex => .error (.err "Malformed table: table contains index pages")

/-- `Database::select_fields`: resolve the table (typed `Table not found`
error), and when an applicable index exists run the two-phase lookup — Phase A
over the index root, an ascending sort of the rowids, then Phase B over the
table root — otherwise the full scan. -/
def selectFieldsRun (fuel : Nat) (file : List Nat) (ps : Nat) (tables : List TableS)
    (stmt : SelectFieldsS) : Except RErr (List (List Nat)) :=
  match findTable tables stmt.table with
  | none => .error (.err "Table not found")
  | some table =>
    match findApplicableIndex table stmt.whereClause with
    | some index => do
      let q ← mkIndexQuery table stmt index
      let page ← getPage file ps (wrapSub32 index.rootpage 1)
      let ids ← readIndexF fuel file ps q page []
      let sorted := sortInts ids
      let q2 ← mkQuery table stmt
      let page2 ← getPage file ps (wrapSub32 table.rootpage 1)
      readIdsF fuel file ps q2 sorted page2
    | none => do
      let q ← mkQuery table stmt
      let page ← getPage file ps (wrapSub32 table.rootpage 1)
      readTableF fuel file ps q page

/-- The scan plan on its own (the no-index branch of `select_fields`): the
full table scan with the statement's filter. -/
def scanPlanRun (fuel : Nat) (file : List Nat) (ps : Nat) (tables : List TableS)
    (stmt : SelectFieldsS) : Except RErr (List (List Nat)) :=
  match findTable tables stmt.table with
  | none => .error (.err "Table not found")
  | some table => do
    let q ← mkQuery table stmt
    let page ← getPage file ps (wrapSub32 table.rootpage 1)
    readTableF fuel file ps q page

/-! ### Spec-side comparison definitions -/

/-- Modelled from the spec: the `SELECT COUNT(*) FROM t` execution path of the
binary's dispatch (the revision of `main.rs` under `src/` predates it): load
the table's root page via `get_page(rootpage - 1)` and print its page
header's `number_of_cells` followed by a newline (§4.8 "Count"). -/
def countCmd (file : List Nat) (ps : Nat) (rootpage : Nat) : Except RErr String := do
  let page ← getPage file ps (wrapSub32 rootpage 1)
  .ok (toString page.header.numberOfCells ++ "\n")

/-- Modelled from the spec: the count of user tables read from page 1 (§ S1)
— decode page 1's cells as records and count the rows whose name column (the
second record value) does not begin with `sqlite_`. -/
def userTablesOnPage1 (file : List Nat) (ps : Nat) : Except RErr Nat := do
  let page ← readWithOffset (file.drop 100) (wrapSub16 ps 100) 100
  let cells ← cellsB page
  let names ← cells.mapM (fun c =>
    match c with
    | .leafTable _ rowid payload _ => do
      let r ← recordReadSpec rowid payload
      match r.values.get? 1 with
      | some (.text n) => .ok n
      | _ => .error (.err "Invalid schema name")
    | _ => .error (.err "Invalid cell kind"))
  .ok (names.filter (fun n => !((strBytes "sqlite_").isPrefixOf n)) |>.length)

/-- Modelled from the spec: the on-disk width of a serial type per the table
of §4.4. -/
def serialSpecWidth (t : ColumnTypeR) : Nat :=
  match t with
  | .null | .zero | .one => 0
  | .i8 => 1
  | .i16 => 2
  | .i24 => 3
  | .i32 => 4
  | .i48 => 6
  | .i64 => 8
  | .f64 => 8
  | .blob n => n
  | .text n => n

/-- Modelled from the spec: the serial types declared in a record's own
header — read the header-size varint, then serial-type varints until exactly
that many bytes are consumed (§4.4). -/
def headerSerialTypesSpec (payload : List Nat) : Except RErr (List ColumnTypeR) := do
  let h := varintRead payload
  let sr ← readSerialsSpec payload (payload.length + 1) h.2 (intToU64 h.1)
  .ok sr.1

/-- Modelled from the spec: the declared header size of a record. -/
def headerSizeSpec (payload : List Nat) : Nat := intToU64 (varintRead payload).1

/-! ### Concrete inputs -/

/-- Zero-pad a byte list to a fixed length. -/
def padTo (l : List Nat) (n : Nat) : List Nat := l ++ List.replicate (n - l.length) 0

/-- A 16-byte page whose single cell pointer (200) lies outside the page:
kind `0x0d` (table leaf), one cell. -/
def c6bytes : List Nat := padTo [13, 0, 0, 0, 1, 0, 0, 0, 0, 200] 16

/-- A page one byte short of its declared size. -/
def c6shortBytes : List Nat := List.replicate 15 0

/-- A full-length page with the invalid kind byte 7. -/
def c6badKindBytes : List Nat := padTo [7] 16

/-- Page 2 of the boundary-rowid database: an interior table page with one
cell `(left_child = 3, key = 5)` and right child 4. -/
def c1Page2 : List Nat :=
  padTo ([5, 0, 0, 0, 1, 0, 0, 0, 0, 0, 0, 4, 0, 20] ++ List.replicate 6 0 ++ [0, 0, 0, 3, 5]) 64

/-- Page 3: the left table leaf, rows `(rowid 3, c = "x")` and
`(rowid 5, c = "y")`. -/
def c1Page3 : List Nat :=
  padTo ([13, 0, 0, 0, 2, 0, 0, 0, 0, 20, 0, 30] ++ List.replicate 8 0 ++
    [3, 3, 2, 15, 120] ++ List.replicate 5 0 ++ [3, 5, 2, 15, 121]) 64

/-- Page 4: the right table leaf, row `(rowid 7, c = "z")`. -/
def c1Page4 : List Nat :=
  padTo ([13, 0, 0, 0, 1, 0, 0, 0, 0, 20] ++ List.replicate 10 0 ++ [3, 7, 2, 15, 122]) 64

/-- Page 5: the index leaf with entries `("x", 3)`, `("y", 5)`, `("z", 7)`. -/
def c1Page5 : List Nat :=
  padTo ([10, 0, 0, 0, 3, 0, 0, 0, 0, 20, 0, 30, 0, 40] ++ List.replicate 6 0 ++
    [5, 3, 15, 1, 120, 3] ++ List.replicate 4 0 ++
    [5, 3, 15, 1, 121, 5] ++ List.replicate 4 0 ++
    [5, 3, 15, 1, 122, 7]) 64

/-- The boundary-rowid database file (page size 64, five pages): page 1 is
unused by the query below, pages 2–4 a table B-tree whose interior separator
key 5 EQUALS the rowid of the matching row in the left leaf, page 5 the index
on column `c`. -/
def c1File : List Nat := List.replicate 64 0 ++ c1Page2 ++ c1Page3 ++ c1Page4 ++ c1Page5

/-- The schema table `t(c)` with the index `idx` on `(c)`, root page 2, index
root page 5. -/
def c1Table : TableS :=
  { name := [116]
    columns := [{ name := [99], isPrimaryKey := false }]
    indexes := [{ name := strBytes "idx", columns := [[99]], tableName := [116], rootpage := 5 }]
    rootpage := 2 }

/-- `SELECT c FROM t WHERE c = 'y'`. -/
def c1Stmt : SelectFieldsS :=
  { fields := [[99]], table := [116], whereClause := some { field := [99], value := [121] } }

example : getPage c1File 64 1 = readWithOffset (c1File.drop 64) 64 0 := rfl
example : (getPage c1File 64 1).map (fun p => p.header.kind) = .ok .interiorTable := by decide
example :
    (getPage c1File 64 1).bind cellsB = .ok [.interiorTable 3 5] := by decide
example :
    (getPage c1File 64 4).bind cellsB =
      .ok [.leafIndex 5 [3, 15, 1, 120, 3] 0, .leafIndex 5 [3, 15, 1, 121, 5] 0,
           .leafIndex 5 [3, 15, 1, 122, 7] 0] := by decide
example : selectFieldsRun 16 c1File 64 [c1Table] c1Stmt = .ok [] := by decide
example : scanPlanRun 16 c1File 64 [c1Table] c1Stmt = .ok [[121, 10]] := by decide

/-- The `apples` schema-row cell (rowid 1, root page 2). -/
def applesCell : List Nat :=
  [16, 1, 6, 15, 25, 15, 1, 15, 116, 97, 112, 112, 108, 101, 115, 116, 2, 99]

/-- The `oranges` schema-row cell (rowid 2, root page 3). -/
def orangesCell : List Nat :=
  [17, 2, 6, 15, 27, 15, 1, 15, 116, 111, 114, 97, 110, 103, 101, 115, 116, 3, 99]

/-- The `sqlite_a` schema-row cell (rowid 3, root page 4): a sqlite-internal
name. -/
def sqliteACell : List Nat :=
  [18, 3, 6, 15, 29, 15, 1, 15, 116, 115, 113, 108, 105, 116, 101, 95, 97, 116, 4, 99]

/-- Page 1 of the dbinfo/count database (page size 256): magic, page size
`0x0100`, and a table-leaf schema page with three rows — `apples`, `oranges`
and the sqlite-internal `sqlite_a` — whose cell pointers are file-absolute
(150, 170, 190), as page-1 pointers are. -/
def c78Page1 : List Nat :=
  padTo (magicBytes ++ [1, 0] ++ List.replicate 82 0 ++
    [13, 0, 0, 0, 3, 0, 0, 0] ++ [0, 150, 0, 170, 0, 190] ++ List.replicate 36 0 ++
    applesCell ++ [0, 0] ++ orangesCell ++ [0] ++ sqliteACell) 256

/-- Page 2 of the dbinfo/count database: a single table leaf holding the four
rows of `apples` (rowids 1–4, one text column). -/
def c78Page2 : List Nat :=
  padTo ([13, 0, 0, 0, 4, 0, 0, 0] ++ [0, 100, 0, 110, 0, 120, 0, 130] ++
    List.replicate 84 0 ++
    [3, 1, 2, 15, 120] ++ List.replicate 5 0 ++ [3, 2, 2, 15, 120] ++ List.replicate 5 0 ++
    [3, 3, 2, 15, 120] ++ List.replicate 5 0 ++ [3, 4, 2, 15, 120]) 256

/-- The dbinfo/count database: two 256-byte pages. -/
def c78File : List Nat := c78Page1 ++ c78Page2

example : dbinfoOutput c78File = .ok "database page size: 256\nnumber of tables: 3\n" := by
  decide
example : userTablesOnPage1 c78File 256 = .ok 2 := by decide
example : countCmd c78File 256 2 = .ok "4\n" := by decide
example : ((getPage c78File 256 1).bind cellsB).map List.length = .ok 4 := by decide

/-- A database whose single schema row stores its root page with the TWO-byte
integer serial type (serial 2, bytes `0x00 0x02`) instead of the one-byte
type: magic, page size 256, one table-leaf schema row at file offset 150. -/
def c10File : List Nat :=
  padTo (magicBytes ++ [1, 0] ++ List.replicate 82 0 ++
    [13, 0, 0, 0, 1, 0, 0, 0] ++ [0, 150] ++ List.replicate 40 0 ++
    [12, 1, 6, 15, 15, 15, 2, 15, 116, 110, 110, 0, 2, 115]) 256

example : dbOpen c10File = .error (.err "Invalid schema root page") := by decide

/-! ### Supporting lemmas -/

/-- The serial-type loop of the old record decoder returns exactly the
caller-supplied number of column types. -/
theorem readSerialsOld_length (payload : List Nat) :
    ∀ (cc pos : Nat) (r : List ColumnTypeR × Nat),
      readSerialsOld payload cc pos = .ok r → r.1.length = cc := by
  intro cc
  induction cc with
  | zero =>
    intro pos r h
    simp only [readSerialsOld] at h
    cases h
    rfl
  | succ c ih =>
    intro pos r h
    rw [readSerialsOld] at h
    split at h
    · exact absurd h (by simp)
    · simp only [bind, Except.bind] at h
      cases hct : columnTypeFromOld (intToU64 (varintRead (payload.drop pos)).1) with
      | error e => rw [hct] at h; exact absurd h (by simp)
      | ok t =>
        rw [hct] at h
        cases hr : readSerialsOld payload c (pos + (varintRead (payload.drop pos)).2) with
        | error e => rw [hr] at h; exact absurd h (by simp)
        | ok r2 =>
          rw [hr] at h
          cases h
          simp [ih _ r2 hr]

/-- The value loop returns one value per column type. -/
theorem readValuesGo_length (signed : Bool) (payload : List Nat) :
    ∀ (ts : List ColumnTypeR) (pos : Nat) (vs : List ColumnValue),
      readValuesGo signed payload ts pos = .ok vs → vs.length = ts.length := by
  intro ts
  induction ts with
  | nil =>
    intro pos vs h
    simp only [readValuesGo] at h
    cases h
    rfl
  | cons t ts ih =>
    intro pos vs h
    rw [readValuesGo] at h
    simp only [bind, Except.bind] at h
    cases hd : decodeValueAt signed t payload pos with
    | error e => rw [hd] at h; exact absurd h (by simp)
    | ok r =>
      rw [hd] at h
      dsimp only at h
      cases hrest : readValuesGo signed payload ts r.2 with
      | error e => rw [hrest] at h; exact absurd h (by simp)
      | ok tail =>
        rw [hrest] at h
        cases h
        simp [ih _ tail hrest]

/-- Successful `List.mapM` into `Except` maps position-wise: the output at
index `j` comes from applying the function to the input at index `j`. -/
theorem mapM_except_get {α β : Type} (f : α → Except RErr β) :
    ∀ (l : List α) (out : List β), l.mapM f = .ok out →
      ∀ (j : Nat) (a : α), l.get? j = some a → ∃ b, out.get? j = some b ∧ f a = .ok b := by
  intro l
  induction l with
  | nil =>
    intro out h j a ha
    simp at ha
  | cons x xs ih =>
    intro out h j a ha
    rw [List.mapM_cons] at h
    simp only [bind, Except.bind, pure, Except.pure] at h
    cases hx : f x with
    | error e => rw [hx] at h; exact absurd h (by simp)
    | ok b =>
      rw [hx] at h
      cases hxs : xs.mapM f with
      | error e => rw [hxs] at h; exact absurd h (by simp)
      | ok bs =>
        rw [hxs] at h
        cases h
        match j with
        | 0 =>
          simp only [List.get?_cons_zero] at ha
          cases ha
          exact ⟨b, rfl, hx⟩
        | Nat.succ j' =>
          simp only [List.get?_cons_succ] at ha
          exact ih bs hxs j' a ha

/-! ### Claim theorems -/

/-- C1: the two-phase index-assisted lookup does NOT emit the rows the full
scan with the same filter emits.  On a database whose table B-tree has an
interior cell with separator key 5 — the key being the maximum rowid of the
left subtree, so the matching row `(rowid 5, c = 'y')` lives in the LEFT
leaf — Phase B partitions the pending rowids with the strict predicate
`*id < key`, sends rowid 5 into the right subtree, and emits nothing, while
the scan plan emits the row.  This evaluates the embedded engine at that
failing input. -/
theorem c1_index_lookup_misses_boundary_rowid :
    selectFieldsRun 16 c1File 64 [c1Table] c1Stmt = .ok [] ∧
    scanPlanRun 16 c1File 64 [c1Table] c1Stmt = .ok [[121, 10]] ∧
    ([] : List (List Nat)) ≠ [[121, 10]] := by
  exact ⟨by decide, by decide, by decide⟩

/-- C2 counterexample: the claim that the engine never panics on malformed
input is false — decoding a record whose header declares the reserved serial
type 10 drives `ColumnType::from` into `unreachable!()`, a panic, not a typed
error. -/
theorem c2_counterexample :
    ¬ (∀ (payload : List Nat) (columnCount : Nat),
        isPanicE (recordReadOld payload columnCount) = false) := by
  intro h
  exact absurd (h [2, 10] 1) (by decide)

/-- C2 amended: the record decoder panics on an unrecognized serial type and
on a payload shorter than its declared widths, and reading cells panics on an
out-of-range cell pointer; only the short page read and the invalid page kind
byte of the cited sites surface as typed errors. -/
theorem c2_panic_behavior :
    isPanicE (recordReadOld [2, 10] 1) = true ∧
    isPanicE (recordReadOld [2, 1] 1) = true ∧
    isPanicE ((readWithOffset c6bytes 16 0).bind cellsB) = true ∧
    readWithOffset c6shortBytes 16 0 = .error (.err "Io") ∧
    readWithOffset c6badKindBytes 16 0 = .error (.err "Invalid page kind") := by
  exact ⟨by decide, by decide, by decide, by decide, by decide⟩

/-- C3: the record decoder diverges from the serial-type table at the failing
inputs — serial types 12 and 13 (empty blob, empty text; and the reserved 10
and 11) hit `unreachable!()` and panic instead of decoding, and a 1-byte
integer with byte `0xFF` decodes to 255 (zero-extended) rather than the
sign-extended −1 the claim prescribes.  The nearby values 14 and 15 do map to
a 1-byte blob and a 1-byte text. -/
theorem c3_serial_types_panic_and_no_sign_extension :
    columnTypeFromOld 12 = .error (.panic "unreachable") ∧
    columnTypeFromOld 13 = .error (.panic "unreachable") ∧
    columnTypeFromOld 10 = .error (.panic "unreachable") ∧
    columnTypeFromOld 11 = .error (.panic "unreachable") ∧
    columnTypeFromOld 14 = .ok (.blob 1) ∧
    columnTypeFromOld 15 = .ok (.text 1) ∧
    recordReadOld [2, 1, 255] 1 = .ok [.i8 255] ∧
    ColumnValue.i8 255 ≠ ColumnValue.i8 (-1) := by
  exact ⟨by decide, by decide, by decide, by decide, by decide, by decide, by decide, by decide⟩

/-- C4 counterexample: the record length law is false of the decoder — on
payload `[2, 0, 0]` with a caller-supplied column count of 2 the decoder
returns two values although the record's own header (size 2) declares exactly
one serial type, and the declared serials' width sum (0) differs from
`payload.len() - header_size` (1). -/
theorem c4_counterexample :
    ¬ (∀ (payload : List Nat) (cc : Nat) (vs : List ColumnValue),
        recordReadOld payload cc = .ok vs →
        (headerSerialTypesSpec payload).map List.length = .ok vs.length ∧
        (headerSerialTypesSpec payload).map (fun ts => (ts.map serialSpecWidth).sum) =
          .ok (payload.length - headerSizeSpec payload)) := by
  intro h
  exact absurd (h [2, 0, 0] 2 [.null, .null] (by decide)).1 (by decide)

/-- C4 amended: the decoder reads the header-size varint but ignores it and
reads exactly the caller-supplied number of serial types, so a decoded
record's column count equals the caller's `column_count`; no relation between
the declared header and the payload length is enforced. -/
theorem c4_column_count_is_callers (payload : List Nat) (cc : Nat) (vs : List ColumnValue)
    (h : recordReadOld payload cc = .ok vs) : vs.length = cc := by
  rw [recordReadOld] at h
  simp only [bind, Except.bind] at h
  cases hs : readSerialsOld payload cc (varintRead payload).2 with
  | error e => rw [hs] at h; exact absurd h (by simp)
  | ok sr =>
    rw [hs] at h
    dsimp only at h
    have h1 := readSerialsOld_length payload cc (varintRead payload).2 sr hs
    have h2 := readValuesGo_length false payload sr.1 sr.2 vs h
    omega

/-- C4 witness: the amended law at the counterexample's own input. -/
theorem c4_witness : ([ColumnValue.null, ColumnValue.null] : List ColumnValue).length = 2 :=
  c4_column_count_is_callers [2, 0, 0] 2 [.null, .null] (by decide)

/-- C5 counterexample: on the empty slice the decoder returns byte count 0,
violating `1 ≤ n`; and on eight bytes that all have the high bit set it
returns 8, violating the claimed `n = 9` iff all of the first eight bytes
have their high bit set. -/
theorem c5_counterexample :
    (varintRead []).2 = 0 ∧ (varintRead (List.replicate 8 128)).2 = 8 ∧
    ¬ (∀ bs : List Nat, 1 ≤ (varintRead bs).2 ∧
        ((varintRead bs).2 = 9 ↔ ∀ j, j < 8 → 128 ≤ bs.getD j 0)) := by
  refine ⟨by decide, by decide, ?_⟩
  intro h
  exact absurd (h []).1 (by decide)

/-- C5 amended: for every NONEMPTY byte slice the decoder consumes between
one and nine bytes and never more than the slice holds, the result depends
only on the consumed prefix, and nine bytes are consumed iff the slice has at
least nine bytes and all of the first eight have their high bit set. -/
theorem c5_varint_read_bounds (bs : List Nat) (hbs : bs ≠ []) :
    1 ≤ (varintRead bs).2 ∧ (varintRead bs).2 ≤ 9 ∧ (varintRead bs).2 ≤ bs.length ∧
    varintRead (bs.take (varintRead bs).2) = varintRead bs ∧
    ((varintRead bs).2 = 9 ↔ (9 ≤ bs.length ∧ ∀ j, j < 8 → 128 ≤ bs.getD j 0)) := by
  obtain ⟨h1, h2, h3, h4⟩ := varintLoop_count bs 0 0 (by omega) hbs
  refine ⟨h1, by simpa using h2, h3, ?_, by simpa using h4⟩
  simp only [varintRead]
  rw [varintLoop_take]

/-- C5 witness: the amended bounds at the one-byte slice `[3]`. -/
theorem c5_witness : 1 ≤ (varintRead [3]).2 :=
  (c5_varint_read_bounds [3] (by decide)).1

/-- The four valid page-kind bytes. -/
def validKindByte (b : Nat) : Bool := b == 2 || b == 5 || b == 10 || b == 13

/-- `PageKind::try_from` succeeds exactly on the four valid kind bytes. -/
theorem pageKindFrom_ok_iff (b : Nat) : isOkE (pageKindFrom b) = true ↔ validKindByte b = true := by
  by_cases h2 : b = 2
  · subst h2; decide
  · by_cases h5 : b = 5
    · subst h5; decide
    · by_cases h10 : b = 10
      · subst h10; decide
      · by_cases h13 : b = 13
        · subst h13; decide
        · simp [pageKindFrom, validKindByte, h2, h5, h10, h13, isOkE]

/-- C6 counterexample: a full-length page with a valid kind byte whose single
cell pointer (200) lies outside the 16-byte page LOADS SUCCESSFULLY — no
`MalformedPage` error — and the out-of-range pointer instead panics later
when the cells are read. -/
theorem c6_counterexample :
    isOkE (readWithOffset c6bytes 16 0) = true ∧
    (readWithOffset c6bytes 16 0).map (fun p => p.cellPointers) = .ok [200] ∧
    (readWithOffset c6bytes 16 0).bind cellsB = .error (.panic "slice index out of range") := by
  exact ⟨by decide, by decide, by decide⟩

/-- C6 amended: for any page size of at least 12 bytes, loading fails exactly
when the read comes up short or the kind byte is invalid; cell pointers play
no part in the load outcome. -/
theorem c6_load_failure_iff (bytes : List Nat) (ps off : Nat) (hps : 12 ≤ ps) :
    isOkE (readWithOffset bytes ps off) = true ↔
      (ps ≤ bytes.length ∧ validKindByte (bytes.getD 0 0) = true) := by
  by_cases hlen : bytes.length < ps
  · rw [readWithOffset, if_pos hlen]
    constructor
    · intro h; exact absurd h (by decide)
    · rintro ⟨h1, _⟩; exact absurd h1 (by omega)
  · obtain ⟨k, rfl⟩ : ∃ k, ps = k + 1 := ⟨ps - 1, by omega⟩
    cases bytes with
    | nil =>
      exact absurd (show List.length ([] : List Nat) < k + 1 by simp) hlen
    | cons b rest =>
      have hple : (k + 1) ≤ (b :: rest).length := by omega
      have hplen : ((b :: rest).take (k + 1)).length = k + 1 := by
        rw [List.length_take]
        simp only [List.length_cons]
        have : k ≤ rest.length := by
          simp only [List.length_cons] at hple
          omega
        omega
      rw [readWithOffset, if_neg hlen]
      rw [if_neg (show ¬ ((b :: rest).take (k + 1)).length < 1 by rw [hplen]; omega)]
      have hgd : ((b :: rest).take (k + 1)).getD 0 0 = b := by
        rw [List.take_succ_cons]
        rfl
      rw [hgd]
      have hgd2 : (b :: rest).getD 0 0 = b := rfl
      rw [hgd2]
      rcases hpk : pageKindFrom b with e | kind
      · dsimp only
        have hvb : validKindByte b = false := by
          cases hvb : validKindByte b with
          | false => rfl
          | true =>
            have h := (pageKindFrom_ok_iff b).mpr hvb
            rw [hpk] at h
            exact absurd h (by simp [isOkE])
        constructor
        · intro h; exact absurd h (by simp [isOkE])
        · rintro ⟨_, h⟩; rw [hvb] at h; exact absurd h (by simp)
      · dsimp only
        rw [if_neg (show ¬ ((b :: rest).take (k + 1)).length < 8 by rw [hplen]; omega)]
        have hvb : validKindByte b = true := by
          apply (pageKindFrom_ok_iff b).mp
          rw [hpk]
          rfl
        by_cases hint : pageKindIsInterior kind = true
        · simp only [hint, Bool.true_and]
          rw [if_neg (show ¬ (decide (((b :: rest).take (k + 1)).length < 12) = true) by
            rw [hplen]; simp only [decide_eq_true_eq]; omega)]
          constructor
          · intro _; exact ⟨hple, hvb⟩
          · intro _; rfl
        · have hintf : pageKindIsInterior kind = false := by
            cases h : pageKindIsInterior kind with
            | true => exact absurd h hint
            | false => rfl
          simp only [hintf, Bool.false_and]
          rw [if_neg (by decide : ¬ ((false : Bool) = true))]
          constructor
          · intro _; exact ⟨hple, hvb⟩
          · intro _; rfl

/-- C6 witness: the amended iff at the out-of-range-pointer page. -/
theorem c6_witness :
    isOkE (readWithOffset c6bytes 16 0) = true ↔
      (16 ≤ c6bytes.length ∧ validKindByte (c6bytes.getD 0 0) = true) :=
  c6_load_failure_iff c6bytes 16 0 (by decide)

/-- C7: `SELECT COUNT(*) FROM t` loads the table's root page and prints that
page header's `number_of_cells` followed by a newline; on the concrete
single-page table holding four decodable rows the output is exactly `4\n`. -/
theorem c7_count_root_cells :
    (∀ (file : List Nat) (ps n : Nat), n + 1 < 2 ^ 32 →
      countCmd file ps (n + 1) =
        (getPage file ps n).map (fun p => toString p.header.numberOfCells ++ "\n")) ∧
    countCmd c78File 256 2 = .ok "4\n" ∧
    ((getPage c78File 256 1).bind cellsB).map List.length = .ok 4 := by
  refine ⟨?_, by decide, by decide⟩
  intro file ps n hn
  have hw : wrapSub32 (n + 1) 1 = n := by
    unfold wrapSub32
    omega
  rw [countCmd, hw]
  cases h : getPage file ps n with
  | error e => rfl
  | ok p => rfl

/-- C7 witness: the general law instantiated at the four-row table's root. -/
theorem c7_witness :
    countCmd c78File 256 2 =
      (getPage c78File 256 1).map (fun p => toString p.header.numberOfCells ++ "\n") :=
  c7_count_root_cells.1 c78File 256 1 (by decide)

/-- C8 counterexample: `.dbinfo` prints `number of tables: 3` on a database
whose page 1 holds the two user tables `apples` and `oranges` plus the
sqlite-internal `sqlite_a` — the printed count is the raw page-1 cell count,
not the user-table count 2. -/
theorem c8_counterexample :
    dbinfoOutput c78File = .ok "database page size: 256\nnumber of tables: 3\n" ∧
    userTablesOnPage1 c78File 256 = .ok 2 ∧
    "database page size: 256\nnumber of tables: 3\n" ≠
      "database page size: 256\nnumber of tables: 2\n" := by
  exact ⟨by decide, by decide, by decide⟩

/-- C8 amended: on any file of at least 108 bytes `.dbinfo` prints exactly
two lines — the big-endian page size at header offset 16, then the big-endian
`number_of_cells` of the page-1 header (file offset 103), which counts every
schema row including sqlite-internal ones. -/
theorem c8_dbinfo_prints_cell_count (file : List Nat) (h : 108 ≤ file.length) :
    dbinfoOutput file =
      .ok ("database page size: " ++ toString (be16 file 16) ++ "\n" ++
        "number of tables: " ++ toString (be16 file 103) ++ "\n") := by
  rw [dbinfoOutput, mainHeaderRead, mainPageHeaderRead]
  rw [if_neg (by omega), if_neg (by omega)]
  rfl

/-- C8 witness: the amended output shape at the three-row database. -/
theorem c8_witness :
    dbinfoOutput c78File =
      .ok ("database page size: " ++ toString (be16 c78File 16) ++ "\n" ++
        "number of tables: " ++ toString (be16 c78File 103) ++ "\n") :=
  c8_dbinfo_prints_cell_count c78File (by decide)

/-- C9: whenever a selected column is flagged as a primary-key alias, the
rendered value at its position is the decimal rendering of the record's
rowid, whatever the payload values hold. -/
theorem c9_pk_alias_renders_rowid (fields : List (Nat × Bool)) (r : RecordR) (j i : Nat)
    (out : List (List Nat)) (hf : fields.get? j = some (i, true))
    (hout : renderRecordValues fields r = .ok out) :
    out.get? j = some (intToDecBytes r.rowid) := by
  obtain ⟨b, hb, hfb⟩ := mapM_except_get _ fields out hout j (i, true) hf
  simp only at hfb
  cases hfb
  exact hb

/-- C9 witness: a one-field primary-key selection over a record whose payload
slot is `NULL` renders the rowid 7. -/
theorem c9_witness :
    ([[55]] : List (List Nat)).get? 0 = some (intToDecBytes (7 : Int)) :=
  c9_pk_alias_renders_rowid [(0, true)] { rowid := 7, values := [.null] } 0 0 [[55]]
    (by decide) (by decide)

/-- An integer column value stored with a serial type wider than one byte. -/
def isWideInt : ColumnValue → Bool
  | .i16 _ | .i24 _ | .i32 _ | .i48 _ | .i64 _ => true
  | _ => false

/-- C10: a schema row that is well-formed except that its `rootpage` column
is stored with any integer serial type wider than one byte is rejected with
the `Invalid schema root page` error; a schema page containing such a row
fails to decode; and opening the concrete database `c10File` (whose only
schema row stores its root page with the two-byte serial type) fails with
that same error. -/
theorem c10_rootpage_requires_i8 (size overflow : Nat) (rowid : Int) (payload : List Nat)
    (r : RecordR) (a b c : List Nat) (w : ColumnValue) (rest : List ColumnValue)
    (hdec : recordReadSpec rowid payload = .ok r)
    (hvals : r.values = .text a :: .text b :: .text c :: w :: rest)
    (hw : isWideInt w = true) :
    tryFromCell (.leafTable size rowid payload overflow) =
      .error (.err "Invalid schema root page") ∧
    (∀ page : PageB, cellsB page = .ok [.leafTable size rowid payload overflow] →
      sqliteSchemaRead page = .error (.err "Invalid schema root page")) ∧
    dbOpen c10File = .error (.err "Invalid schema root page") := by
  have h1 : tryFromCell (.leafTable size rowid payload overflow) =
      .error (.err "Invalid schema root page") := by
    cases w with
    | i16 v => simp [tryFromCell, hdec, hvals, bind, Except.bind]
    | i24 v => simp [tryFromCell, hdec, hvals, bind, Except.bind]
    | i32 v => simp [tryFromCell, hdec, hvals, bind, Except.bind]
    | i48 v => simp [tryFromCell, hdec, hvals, bind, Except.bind]
    | i64 v => simp [tryFromCell, hdec, hvals, bind, Except.bind]
    | null => simp [isWideInt] at hw
    | i8 v => simp [isWideInt] at hw
    | f64 bs => simp [isWideInt] at hw
    | zero => simp [isWideInt] at hw
    | one => simp [isWideInt] at hw
    | blob content => simp [isWideInt] at hw
    | text content => simp [isWideInt] at hw
  refine ⟨h1, ?_, by decide⟩
  intro page hcells
  simp [sqliteSchemaRead, hcells, h1, bind, Except.bind, List.mapM, List.mapM.loop]

/-- C10 witness: the rejection at the concrete schema row of `c10File`. -/
theorem c10_witness :
    tryFromCell (.leafTable 12 1 [6, 15, 15, 15, 2, 15, 116, 110, 110, 0, 2, 115] 0) =
      .error (.err "Invalid schema root page") :=
  (c10_rootpage_requires_i8 12 0 1 [6, 15, 15, 15, 2, 15, 116, 110, 110, 0, 2, 115]
    { rowid := 1, values := [.text [116], .text [110], .text [110], .i16 2, .text [115]] }
    [116] [110] [110] (.i16 2) [.text [115]] (by decide) (by decide) (by decide)).1
